import Mathlib

/-!
Shallow embedding of the raycast-odoo client core: clock arithmetic
(`getElapsedSeconds`), the JSON-RPC transport error classification
(`request`), database-name resolution (`extractDatabaseName`), the
attendance status cache (`getAttendanceStatus`) and the timesheet timer
state machine (`startTimer`, `startTimerWithDetails`, `updateTimer`,
`assignTimerDetails`, `stopTimer`, `cancelTimer`, `getRunningTimer`).
JavaScript numbers that the claims use only at integer values are
modelled as `Int`/`Nat` (fractional hours as `ℚ`); stateful storage is
explicit state passing; network responses are explicit oracle arguments.
-/

namespace Odoo

/-! ### String helpers (models of JS string methods on the char-list view) -/

/-- Test whether `l` starts with `pat` (JS `startsWith`). -/
def listLead : List Char → List Char → Bool
  | [], _ => true
  | _ :: _, [] => false
  | p :: ps, c :: cs => p == c && listLead ps cs

/-- Test whether `pat` occurs contiguously in `l`
(JS `String.prototype.includes`). -/
def containsSeg (pat : List Char) : List Char → Bool
  | [] => listLead pat []
  | c :: rest => listLead pat (c :: rest) || containsSeg pat rest

/-- JS `s.includes(pat)`. -/
def strIncludes (s pat : String) : Bool := containsSeg pat.data s.data

/-- JS `s.startsWith(pat)`. -/
def strLead (s pat : String) : Bool := listLead pat.data s.data

/-- JS `s.endsWith(suf)`. -/
def strEnds (s suf : String) : Bool := listLead suf.data.reverse s.data.reverse

/-- Drop the last `n` characters of `s`. -/
def strDropLast (s : String) (n : Nat) : String :=
  ⟨s.data.take (s.data.length - n)⟩

/-! ### Calendar arithmetic

The JS `Date` machinery used by `getElapsedSeconds` and `toISOString` is
modelled with the standard proleptic-Gregorian civil-date conversions
(days-from-civil and its inverse); times are treated at a fixed UTC-style
offset, which both source functions apply identically to their inputs. -/

/-- Days since the epoch 1970-01-01 of a civil date (proleptic Gregorian). -/
def daysFromCivil (y : Int) (m d : Nat) : Int :=
  let y' : Int := if m ≤ 2 then y - 1 else y
  let era : Int := y'.fdiv 400
  let yoe : Nat := (y' - era * 400).toNat
  let mp : Nat := if m > 2 then m - 3 else m + 9
  let doy : Nat := (153 * mp + 2) / 5 + d - 1
  let doe : Nat := yoe * 365 + yoe / 4 - yoe / 100 + doy
  era * 146097 + (doe : Int) - 719468

/-- Civil date (year, month, day) of a day count since 1970-01-01. -/
def civilFromDays (z0 : Int) : Int × Nat × Nat :=
  let z : Int := z0 + 719468
  let era : Int := z.fdiv 146097
  let doe : Nat := (z - era * 146097).toNat
  let yoe : Nat := (doe - doe / 1460 + doe / 36524 - doe / 146096) / 365
  let doy : Nat := doe - (365 * yoe + yoe / 4 - yoe / 100)
  let mp : Nat := (5 * doy + 2) / 153
  let d : Nat := doy - (153 * mp + 2) / 5 + 1
  let m : Nat := if mp < 10 then mp + 3 else mp - 9
  (era * 400 + (yoe : Int) + (if m ≤ 2 then 1 else 0), m, d)

/-- Left-pad the decimal rendering of `n` with zeros to width `w`. -/
def padNum (w n : Nat) : String :=
  let s := toString n
  ⟨List.replicate (w - s.data.length) '0' ++ s.data⟩

/-- JS `new Date(ms).toISOString()` for an epoch-millisecond instant. -/
def toISOString (ms : Int) : String :=
  let days : Int := ms.fdiv 86400000
  let rem : Nat := (ms - days * 86400000).toNat
  let c := civilFromDays days
  let y := c.1
  let yearStr :=
    if 0 ≤ y ∧ y ≤ 9999 then padNum 4 y.toNat
    else if y < 0 then "-" ++ padNum 6 (-y).toNat
    else "+" ++ padNum 6 y.toNat
  yearStr ++ "-" ++ padNum 2 c.2.1 ++ "-" ++ padNum 2 c.2.2 ++ "T" ++
    padNum 2 (rem / 3600000) ++ ":" ++ padNum 2 (rem / 60000 % 60) ++ ":" ++
    padNum 2 (rem / 1000 % 60) ++ "." ++ padNum 3 (rem % 1000) ++ "Z"

/-! ### ClockSync: `getElapsedSeconds` (src/utils/odoo/format utilities) -/

/-- Components of an Odoo `"YYYY-MM-DD HH:MM:SS"` timestamp. -/
structure OdooDateTime where
  year : Nat
  month : Nat
  day : Nat
  hour : Nat
  minute : Nat
  second : Nat
  deriving DecidableEq, Repr

def isLeap (y : Nat) : Bool :=
  (y % 4 == 0 && y % 100 != 0) || y % 400 == 0

def daysInMonth (y m : Nat) : Nat :=
  if m = 2 then (if isLeap y then 29 else 28)
  else if m = 4 ∨ m = 6 ∨ m = 9 ∨ m = 11 then 30
  else 31

/-- Calendar validity, matching what JS `new Date` accepts for an
ISO-format string (month 1–12, day within the month, time fields in range). -/
def validDT (t : OdooDateTime) : Bool :=
  1 ≤ t.month && t.month ≤ 12 && 1 ≤ t.day && t.day ≤ daysInMonth t.year t.month &&
    t.hour ≤ 23 && t.minute ≤ 59 && t.second ≤ 59

def num2 (a b : Char) : Nat := (a.toNat - 48) * 10 + (b.toNat - 48)

/-- Parse of `startTime.replace(" ", "T")` by `new Date(...)`: the string
must have the exact `"YYYY-MM-DD HH:MM:SS"` shape and denote a valid
calendar date-time, else JS yields an Invalid Date (modelled as `none`). -/
def parseOdooTimestamp (s : String) : Option OdooDateTime :=
  match s.data with
  | [y1, y2, y3, y4, '-', m1, m2, '-', d1, d2, ' ',
     h1, h2, ':', n1, n2, ':', c1, c2] =>
    if [y1, y2, y3, y4, m1, m2, d1, d2, h1, h2, n1, n2, c1, c2].all Char.isDigit then
      let t : OdooDateTime :=
        { year := num2 y1 y2 * 100 + num2 y3 y4
          month := num2 m1 m2
          day := num2 d1 d2
          hour := num2 h1 h2
          minute := num2 n1 n2
          second := num2 c1 c2 }
      if validDT t then some t else none
    else none
  | _ => none

/-- Epoch seconds of a parsed timestamp (`Date.getTime() / 1000`). -/
def epochSecs (t : OdooDateTime) : Int :=
  daysFromCivil (t.year) t.month t.day * 86400 +
    (t.hour * 3600 + t.minute * 60 + t.second)

/-- Model of `getElapsedSeconds(startTime, serverTime)`: parse both Odoo-format
timestamps after replacing the space with `"T"`, subtract the millisecond
time values, and take `Math.floor` of the difference over 1000.  An
invalid timestamp makes the JS result `NaN`, modelled as `none`. -/
def getElapsedSeconds (startTime serverTime : String) : Option Int :=
  match parseOdooTimestamp startTime, parseOdooTimestamp serverTime with
  | some a, some b => some ((epochSecs b * 1000 - epochSecs a * 1000).fdiv 1000)
  | _, _ => none

/-! ### RpcTransport: `OdooClient.request` error classification -/

/-- JSON values that a JSON-RPC `result` field can take, as far as the
client inspects them (`result === false` is the only value-level test). -/
inductive RpcResult where
  | rFalse
  | rTrue
  | rNull
  | rNum (n : Int)
  | rStr (s : String)
  deriving DecidableEq, Repr

/-- The `data` object inside a JSON-RPC error (`{message, debug}`). -/
structure RpcErrorData where
  message : String
  debug : String
  deriving DecidableEq, Repr

/-- The `error` object of a JSON-RPC response body. -/
structure RpcError where
  code : Int
  message : String
  data : Option RpcErrorData
  deriving DecidableEq, Repr

/-- A JSON-RPC response body: optional `result`, optional `error`. -/
structure JsonRpcResponse where
  result : Option RpcResult
  error : Option RpcError
  deriving DecidableEq, Repr

/-- An HTTP response as `request` consumes it: status, status text, body. -/
structure HttpResponse where
  status : Nat
  statusText : String
  body : JsonRpcResponse
  deriving DecidableEq, Repr

/-- The errors `request` can raise: `SessionExpiredError`, or
`OdooApiError(message, code?, debug?)`. -/
inductive OdooError where
  | sessionExpired
  | apiError (message : String) (code : Option Int) (dbgDetail : Option String)
  deriving DecidableEq, Repr

/-- Predicate `response.ok` of `fetch`: status in the range 200–299. -/
def responseOk (status : Nat) : Bool := 200 ≤ status && status < 300

/-- Model of `OdooClient.request(endpoint, params)` response handling: non-ok
status 401/403 raises `SessionExpiredError`, any other non-ok status
raises `OdooApiError` with the status code; a body with an `error` field
raises `OdooApiError` with `error.data?.message || error.message` (JS
`||`, so an empty nested message falls back) and `error.code`; a
`result` of exactly `false` on an endpoint whose path includes
`"/web/session"` raises `SessionExpiredError`; otherwise the `result`
is returned. -/
def request (endpoint : String) (resp : HttpResponse) :
    Except OdooError (Option RpcResult) :=
  if !responseOk resp.status then
    if resp.status = 401 ∨ resp.status = 403 then .error .sessionExpired
    else .error (.apiError ("HTTP " ++ toString resp.status ++ ": " ++ resp.statusText)
      (some (resp.status : Int)) none)
  else
    match resp.body.error with
    | some e =>
      let errorMessage :=
        match e.data with
        | some d => if d.message = "" then e.message else d.message
        | none => e.message
      .error (.apiError errorMessage (some e.code) (e.data.map (·.debug)))
    | none =>
      if resp.body.result = some .rFalse && strIncludes endpoint "/web/session" then
        .error .sessionExpired
      else .ok resp.body.result

/-! ### SessionManager: `extractDatabaseName` -/

/-- The subdomain extracted by `hostname.replace(/\.(dev\.)?odoo\.com$/, "")`. -/
def odooSubdomain (host : String) : String :=
  if strEnds host ".dev.odoo.com" then strDropLast host 13
  else if strEnds host ".odoo.com" then strDropLast host 9
  else host

/-- Model of `extractDatabaseName`, with the hostname already extracted from the
URL and the `/web/database/list` call's outcome supplied as a list
(`fetchDatabaseList` maps both a failed call and a null result to `[]`). -/
def extractDatabaseName (host : String) (databases : List String) : String :=
  if strEnds host ".odoo.com" then
    let subdomain := odooSubdomain host
    if databases.length = 1 then databases.headD ""
    else if databases.length > 1 then
      match databases.find? (fun db => strLead db subdomain) with
      | some m => m
      | none => databases.headD ""
    else subdomain
  else
    if databases.length = 1 then databases.headD ""
    else ""

/-! ### CacheLayer and AttendanceService -/

/-- A cached entry: payload plus the `Date.now()` at which it was written. -/
structure CachedData (α : Type) where
  data : α
  timestamp : Int
  deriving DecidableEq, Repr

/-- The `attendance_state` enum. -/
inductive AttState where
  | checkedIn
  | checkedOut
  deriving DecidableEq, Repr

/-- Canonical `AttendanceState` record. -/
structure AttendanceState where
  attendance_state : AttState
  last_check_in : Option String
  last_check_out : Option String
  hours_today : ℚ
  employee_name : String
  deriving DecidableEq, Repr

/-- The attendance cache slot in storage. -/
def AStore : Type := Option (CachedData AttendanceState)

/-- Model of `getCachedAttendanceState`: valid only when strictly younger than the
60 000 ms TTL. -/
def getCachedAttendanceState (now : Int) (store : AStore) : Option AttendanceState :=
  match store with
  | none => none
  | some c => if now - c.timestamp < 60000 then some c.data else none

/-- Result shape of the fallback `hr.employee` `attendance_user_data` call. -/
structure FallbackAttendance where
  attendance_state : AttState
  last_attendance_id : Option Nat
  hours_today : ℚ
  deriving DecidableEq, Repr

/-- Network oracle for one `getAttendanceStatus` run: outcome of the
primary `/hr_attendance/attendance_user_data` endpoint and of the
fallback model call (`.error ()` models a raised error). -/
structure AttendanceNet where
  primary : Except Unit AttendanceState
  fallback : Except Unit FallbackAttendance
  deriving Repr

/-- Model of `getAttendanceStatus(useCache)`: cache hit returns without network;
otherwise the primary endpoint is called (1 RPC), on its failure the
fallback model call too (2 RPCs); both successes cache their result; if
both fail the original error propagates.  Returns
(result-or-error, new store, number of RPC requests issued). -/
def getAttendanceStatus (useCache : Bool) (now : Int) (store : AStore)
    (net : AttendanceNet) : Except Unit AttendanceState × AStore × Nat :=
  match (if useCache then getCachedAttendanceState now store else none) with
  | some cached => (.ok cached, store, 0)
  | none =>
    match net.primary with
    | .ok result => (.ok result, some ⟨result, now⟩, 1)
    | .error e =>
      match net.fallback with
      | .ok f =>
        let attendanceState : AttendanceState :=
          { attendance_state := f.attendance_state
            last_check_in := none
            last_check_out := none
            hours_today := f.hours_today
            employee_name := "" }
        (.ok attendanceState, some ⟨attendanceState, now⟩, 2)
      | .error _ => (.error e, store, 2)

/-! ### TimesheetService: timer state machine -/

/-- The `TimerState` record (all fields nullable). -/
structure TimerState where
  timerId : Option Nat
  projectId : Option Nat
  projectName : Option String
  taskId : Option Nat
  taskName : Option String
  description : Option String
  startTime : Option String
  deriving DecidableEq, Repr

/-- The timer cache slot in storage. -/
def TStore : Type := Option (CachedData TimerState)

/-- Model of `getCachedTimerState`: valid only strictly within the 30 000 ms TTL. -/
def getCachedTimerState (now : Int) (store : TStore) : Option TimerState :=
  match store with
  | none => none
  | some c => if now - c.timestamp < 30000 then some c.data else none

/-- Model of `clearTimerCache`. -/
def clearTimerCache (_store : TStore) : TStore := none

/-- JS `x || null` on an optional number: `0` and absence are falsy. -/
def jsOrNoneN : Option Nat → Option Nat
  | some 0 => none
  | o => o

/-- JS `x || null` on an optional string: `""` and absence are falsy. -/
def jsOrNoneS : Option String → Option String
  | some "" => none
  | o => o

/-- JS truthiness of an optional number (`undefined` and `0` are falsy). -/
def jsTruthyN : Option Nat → Bool
  | some n => n != 0
  | none => false

/-- A project or task entry as returned by `name_search`. -/
structure NameEntry where
  id : Nat
  name : String
  deriving DecidableEq, Repr

/-- Model of `projects.find((p) => p.id === x)?.name || null` (same shape for tasks). -/
def resolveName (entries : List NameEntry) (i : Nat) : Option String :=
  jsOrNoneS ((entries.find? (fun p => p.id == i)).map (·.name))

/-- Result object of the `get_running_timer` model call (all fields
optional; `start` is the reported elapsed minutes). -/
structure RunningTimerInfo where
  id : Option Nat
  start : Option Int
  project_id : Option Nat
  task_id : Option Nat
  description : Option String
  step_timer : Option Int
  deriving DecidableEq, Repr

/-- The value the `action_start_new_timesheet_timer` call can produce:
`false`, `null`, a bare numeric id, or an object with an `id` field. -/
inductive StartActionResult where
  | rFalse
  | rNull
  | rId (n : Nat)
  | rObj (id : Nat)
  deriving DecidableEq, Repr

/-- Network oracle for `startTimer`: the start-action result and the
`get_running_timer` result (`none` models `null`/missing object). -/
structure StartNet where
  actionResult : StartActionResult
  runningTimer : Option RunningTimerInfo
  deriving DecidableEq, Repr

/-- The `TimerState` that the `false`/`null` branch of `startTimer`
builds from the `get_running_timer` result: start time is "now minus the
reported elapsed minutes", project/task/description come from the lookup
result with JS-falsy values mapped to null. -/
def lookupTimerState (now : Int) (r : RunningTimerInfo) : TimerState :=
  { timerId := some (r.id.getD 0)
    projectId := jsOrNoneN r.project_id
    projectName := none
    taskId := jsOrNoneN r.task_id
    taskName := none
    description := jsOrNoneS r.description
    startTime := some (toISOString (now - (r.start.getD 0) * 60000)) }

/-- The `false`/`null` branch of `startTimer`: look the timer up via
`get_running_timer`, derive the start instant by subtracting the
reported elapsed minutes from `Date.now()`, cache, and return. -/
def startTimerViaLookup (now : Int) (rt : Option RunningTimerInfo) :
    Except String ((Nat × String) × TStore) :=
  match rt with
  | none => .error "Timer action succeeded but no running timer found. Please try again."
  | some r =>
    if !jsTruthyN r.id then
      .error "Timer action succeeded but no running timer found. Please try again."
    else
      .ok ((r.id.getD 0, toISOString (now - (r.start.getD 0) * 60000)),
        some ⟨lookupTimerState now r, now⟩)

/-- The all-null `TimerState` cached when the start action itself
returned a timer id: start time is "now". -/
def freshTimerState (now : Int) (timerId : Nat) : TimerState :=
  { timerId := some timerId, projectId := none, projectName := none,
    taskId := none, taskName := none, description := none,
    startTime := some (toISOString now) }

/-- Model of `startTimer()`: handles the three result shapes of the start action
((a) `false`/`null` → lookup; (b) bare id; (c) object id), caches a
fresh `TimerState`, and returns `{timerId, startTime}` with the new
cache contents. -/
def startTimer (now : Int) (net : StartNet) :
    Except String ((Nat × String) × TStore) :=
  match net.actionResult with
  | .rFalse => startTimerViaLookup now net.runningTimer
  | .rNull => startTimerViaLookup now net.runningTimer
  | .rId n =>
    if n = 0 then .error "Failed to start timer: action returned invalid result"
    else .ok ((n, toISOString now), some ⟨freshTimerState now n, now⟩)
  | .rObj i =>
    .ok ((i, toISOString now), some ⟨freshTimerState now i, now⟩)

/-- One row of an `account.analytic.line` `read` of `timer_start`. -/
structure TimerStartRow where
  timer_start : String
  deriving DecidableEq, Repr

/-- Network oracle for name resolution (`getProjects`/`getTasks`). -/
structure NamesNet where
  projects : List NameEntry
  tasks : List NameEntry
  deriving DecidableEq, Repr

/-- The in-place patch `updateTimer` applies to a matching cached
`TimerState`: resolve a display name for each newly supplied id; the
task name is only refreshed when the (possibly just-patched) project id
is truthy. -/
def updatePatch (c : TimerState) (projectId taskId : Option Nat)
    (description : Option String) (net : NamesNet) : TimerState :=
  let c1 :=
    match projectId with
    | some p => { c with projectId := some p,
                         projectName := resolveName net.projects p }
    | none => c
  let c2 :=
    match taskId with
    | some t =>
      if jsTruthyN c1.projectId then
        { c1 with taskId := some t, taskName := resolveName net.tasks t }
      else { c1 with taskId := some t }
    | none => c1
  match description with
  | some d => { c2 with description := some d }
  | none => c2

/-- Model of the `updateTimer(timerId, projectId?, taskId?, description?)` cache
effect: after the server `write`, patch the cached entry in place when
its id matches the argument, else leave the store untouched. -/
def updateTimer (timerId : Nat) (projectId taskId : Option Nat)
    (description : Option String) (now : Int) (store : TStore)
    (net : NamesNet) : TStore :=
  match getCachedTimerState now store with
  | none => store
  | some c =>
    if c.timerId == some timerId then
      some ⟨updatePatch c projectId taskId description net, now⟩
    else store

/-- Network oracle for `startTimerWithDetails`: the id returned by
`create`, the `read` of `timer_start`, and the name-search lists. -/
structure DetailsNet where
  createdId : Nat
  readStart : Option (List TimerStartRow)
  projects : List NameEntry
  tasks : List NameEntry
  deriving DecidableEq, Repr

/-- The `TimerState` that `startTimerWithDetails` caches: the created
record's id, the supplied project/task with resolved display names,
`description || null`, and the authoritative `timer_start` read back
from the server. -/
def detailsTimerState (projectId taskId : Nat) (description : Option String)
    (row : TimerStartRow) (net : DetailsNet) : TimerState :=
  { timerId := some net.createdId
    projectId := some projectId
    projectName := resolveName net.projects projectId
    taskId := some taskId
    taskName := resolveName net.tasks taskId
    description := jsOrNoneS description
    startTime := some row.timer_start }

/-- Model of `startTimerWithDetails(projectId, taskId, description?)`: create the
record, start the timer, re-read the authoritative `timer_start`
(raising on an empty read), resolve names, cache, and return
`{timerId, startTime}`. -/
def startTimerWithDetails (projectId taskId : Nat) (description : Option String)
    (now : Int) (net : DetailsNet) : Except String ((Nat × String) × TStore) :=
  match net.readStart with
  | none => .error "Failed to read timer details"
  | some [] => .error "Failed to read timer details"
  | some (row :: _) =>
    .ok ((net.createdId, row.timer_start),
      some ⟨detailsTimerState projectId taskId description row net, now⟩)

/-- Model of the `assignTimerDetails(timerId, projectId, taskId, description?)` cache
effect: the patch applied to a matching cached entry — the new ids,
`description || null`, and resolved display names. -/
def assignPatch (c : TimerState) (projectId taskId : Nat)
    (description : Option String) (net : NamesNet) : TimerState :=
  { c with projectId := some projectId
           taskId := some taskId
           description := jsOrNoneS description
           projectName := resolveName net.projects projectId
           taskName := resolveName net.tasks taskId }

/-- Model of the `assignTimerDetails(timerId, projectId, taskId, description?)` cache
effect: after the onchange/`web_save` calls, patch the matching cached
entry; a non-matching or empty cache entry is left untouched. -/
def assignTimerDetails (timerId projectId taskId : Nat)
    (description : Option String) (now : Int) (store : TStore)
    (net : NamesNet) : TStore :=
  match getCachedTimerState now store with
  | none => store
  | some c =>
    if c.timerId == some timerId then
      some ⟨assignPatch c projectId taskId description net, now⟩
    else store

/-- One row of an `account.analytic.line` `read` of `unit_amount`. -/
structure UnitAmountRow where
  unit_amount : ℚ
  deriving DecidableEq, Repr

/-- Model of `stopTimer(timerId)`: stop action, clear the timer cache, then read
back `unit_amount` (hours) and report `hours * 3600` seconds, with a
missing/empty read yielding duration 0. -/
def stopTimer (readLines : Option (List UnitAmountRow)) (store : TStore) :
    ℚ × TStore :=
  let cleared := clearTimerCache store
  let duration : ℚ :=
    match readLines with
    | some (l :: _) => l.unit_amount * 3600
    | _ => 0
  (duration, cleared)

/-- Model of `cancelTimer(timerId)`: unlink action, then clear the timer cache. -/
def cancelTimer (store : TStore) : TStore := clearTimerCache store

/-- Network oracle for `getRunningTimer`: the `get_running_timer` result,
the `read` of `timer_start`, and the name-search lists. -/
structure TimerNet where
  runningTimer : Option RunningTimerInfo
  readStart : Option (List TimerStartRow)
  projects : List NameEntry
  tasks : List NameEntry
  deriving DecidableEq, Repr

/-- The `TimerState` the network path of `getRunningTimer` builds: id
from the lookup, authoritative `timer_start` from the follow-up read,
JS-falsy project/task/description mapped to null, and display names
resolved only for truthy ids. -/
def fetchedTimerState (r : RunningTimerInfo) (row : TimerStartRow)
    (net : TimerNet) : TimerState :=
  { timerId := some (r.id.getD 0)
    projectId := jsOrNoneN r.project_id
    projectName :=
      if jsTruthyN (jsOrNoneN r.project_id) then
        resolveName net.projects ((jsOrNoneN r.project_id).getD 0)
      else none
    taskId := jsOrNoneN r.task_id
    taskName :=
      if jsTruthyN (jsOrNoneN r.task_id) && jsTruthyN (jsOrNoneN r.project_id) then
        resolveName net.tasks ((jsOrNoneN r.task_id).getD 0)
      else none
    description := jsOrNoneS r.description
    startTime := some row.timer_start }

/-- The network path of `getRunningTimer`: no id ⇒ clear cache, `none`;
empty `timer_start` read ⇒ clear cache, `none`; else build the
`TimerState` from the authoritative `timer_start` and cache it.  The
third component counts RPC requests issued. -/
def getRunningTimerFetch (now : Int) (net : TimerNet) :
    Option TimerState × TStore × Nat :=
  match net.runningTimer with
  | none => (none, none, 1)
  | some r =>
    if !jsTruthyN r.id then (none, none, 1)
    else
      match net.readStart with
      | none => (none, none, 2)
      | some [] => (none, none, 2)
      | some (row :: _) =>
        (some (fetchedTimerState r row net),
         some ⟨fetchedTimerState r row net, now⟩,
         2 + (if jsTruthyN (jsOrNoneN r.project_id) then 1 else 0) +
           (if jsTruthyN (jsOrNoneN r.task_id) && jsTruthyN (jsOrNoneN r.project_id)
            then 1 else 0))

/-- Model of `getRunningTimer(useCache)`: a valid cache entry is returned with no
network traffic, otherwise the network path runs. -/
def getRunningTimer (useCache : Bool) (now : Int) (store : TStore)
    (net : TimerNet) : Option TimerState × TStore × Nat :=
  match (if useCache then getCachedTimerState now store else none) with
  | some cached => (some cached, store, 0)
  | none => getRunningTimerFetch now net

/-- The §3 `TimerState` invariant: a non-null `timerId` forces a
non-null `startTime`. -/
def timerStateInv (s : TimerState) : Bool :=
  s.timerId.isNone || s.startTime.isSome

/-- The invariant lifted to the timer cache slot. -/
def storeInv (st : TStore) : Bool :=
  match st with
  | none => true
  | some c => timerStateInv c.data

/-! ### Supporting lemmas -/

/-- Lemma: `listLead` decides exactly the prefix relation. -/
theorem listLead_iff : ∀ (pat l : List Char),
    listLead pat l = true ↔ ∃ post, l = pat ++ post
  | [], l => by simp [listLead]
  | _ :: _, [] => by simp [listLead]
  | p :: ps, c :: cs => by
    rw [listLead, Bool.and_eq_true, beq_iff_eq, listLead_iff ps cs]
    constructor
    · rintro ⟨rfl, post, rfl⟩
      exact ⟨post, rfl⟩
    · rintro ⟨post, h⟩
      injection h with h1 h2
      exact ⟨h1.symm, post, h2⟩

/-- Lemma: `containsSeg` decides exactly contiguous containment. -/
theorem containsSeg_iff : ∀ (pat l : List Char),
    containsSeg pat l = true ↔ ∃ pre post, l = pre ++ pat ++ post
  | pat, [] => by
    rw [containsSeg, listLead_iff]
    constructor
    · rintro ⟨post, h⟩
      exact ⟨[], post, h⟩
    · rintro ⟨pre, post, h⟩
      have hlen := congrArg List.length h
      simp only [List.length_nil, List.length_append] at hlen
      have hpat : pat = [] := List.length_eq_zero.mp (by omega)
      exact ⟨[], by simp [hpat]⟩
  | pat, c :: cs => by
    rw [containsSeg, Bool.or_eq_true, listLead_iff, containsSeg_iff pat cs]
    constructor
    · rintro (⟨post, h⟩ | ⟨pre, post, h⟩)
      · exact ⟨[], post, by simpa using h⟩
      · exact ⟨c :: pre, post, by simp [h]⟩
    · rintro ⟨pre, post, h⟩
      cases pre with
      | nil => exact Or.inl ⟨post, by simpa using h⟩
      | cons x xs =>
        injection h with h1 h2
        exact Or.inr ⟨xs, post, h2⟩

/-! ### Claims -/

/-- C1: for every pair of valid Odoo-format timestamps `(start, now)`
with `now ≥ start`, `getElapsedSeconds(start, now)` returns the
whole-second floor of `(now - start) / 1000` — i.e. exactly the
difference of the two instants in seconds — with day and month
boundaries handled by the calendar conversion itself. -/
theorem getElapsedSeconds_floor_diff (s1 s2 : String) (a b : OdooDateTime)
    (h1 : parseOdooTimestamp s1 = some a)
    (h2 : parseOdooTimestamp s2 = some b)
    (hle : epochSecs a ≤ epochSecs b) :
    getElapsedSeconds s1 s2 = some (epochSecs b - epochSecs a) := by
  unfold getElapsedSeconds
  rw [h1, h2]
  have hmul : epochSecs b * 1000 - epochSecs a * 1000 =
      (epochSecs b - epochSecs a) * 1000 := by ring
  show some ((epochSecs b * 1000 - epochSecs a * 1000).fdiv 1000) =
    some (epochSecs b - epochSecs a)
  rw [hmul, Int.mul_fdiv_cancel _ (by norm_num)]

/-- Witness for C1, across a (leap-year) month boundary. -/
theorem getElapsedSeconds_floor_diff_witness :
    getElapsedSeconds "2024-02-28 23:59:30" "2024-03-01 00:00:30" = some 86460 := by
  have h := getElapsedSeconds_floor_diff "2024-02-28 23:59:30" "2024-03-01 00:00:30"
    ⟨2024, 2, 28, 23, 59, 30⟩ ⟨2024, 3, 1, 0, 0, 30⟩ (by decide) (by decide) (by decide)
  rw [h]
  decide

/-- C2: at every call instant `now`, `startTimer()` whose start action
returns `false` (or `null`) and whose `get_running_timer` lookup returns
`{id: 42, start: 5}` yields `{timerId: 42, startTime: now − 5 min}` and
caches a `TimerState` with that id and start time and null
project/task/description. -/
theorem startTimer_false_lookup (now : Int) :
    startTimer now ⟨.rFalse, some ⟨some 42, some 5, none, none, none, none⟩⟩ =
      .ok ((42, toISOString (now - 5 * 60000)),
        some ⟨⟨some 42, none, none, none, none, none,
          some (toISOString (now - 5 * 60000))⟩, now⟩) ∧
    startTimer now ⟨.rNull, some ⟨some 42, some 5, none, none, none, none⟩⟩ =
      .ok ((42, toISOString (now - 5 * 60000)),
        some ⟨⟨some 42, none, none, none, none, none,
          some (toISOString (now - 5 * 60000))⟩, now⟩) :=
  ⟨rfl, rfl⟩

/-- C3: a non-success HTTP status of 401 or 403 makes `request` raise
`SessionExpiredError` regardless of the body; every other non-success
status raises an `OdooApiError` carrying that status code. -/
theorem request_http_status (endpoint : String) (resp : HttpResponse)
    (hNotOk : ¬ (200 ≤ resp.status ∧ resp.status < 300)) :
    ((resp.status = 401 ∨ resp.status = 403) →
      request endpoint resp = .error .sessionExpired) ∧
    (resp.status ≠ 401 → resp.status ≠ 403 →
      request endpoint resp = .error (.apiError
        ("HTTP " ++ toString resp.status ++ ": " ++ resp.statusText)
        (some (resp.status : Int)) none)) := by
  have hok : responseOk resp.status = false := by
    simp only [responseOk, Bool.and_eq_false_iff, decide_eq_false_iff_not, not_le, not_lt]
    omega
  constructor
  · intro h
    simp [request, hok, h]
  · intro h1 h2
    simp [request, hok, h1, h2]

/-- Witness for C3: status 403 raises session-expired, status 500 an
`OdooApiError` carrying code 500. -/
theorem request_http_status_witness :
    request "/web/dataset/call_kw" ⟨403, "Forbidden", ⟨none, none⟩⟩ =
      .error .sessionExpired ∧
    request "/web/dataset/call_kw" ⟨500, "Server Error", ⟨none, none⟩⟩ =
      .error (.apiError "HTTP 500: Server Error" (some 500) none) := by
  constructor
  · exact (request_http_status "/web/dataset/call_kw" ⟨403, "Forbidden", ⟨none, none⟩⟩
      (by decide)).1 (by decide)
  · have h := (request_http_status "/web/dataset/call_kw" ⟨500, "Server Error", ⟨none, none⟩⟩
      (by decide)).2 (by decide) (by decide)
    rw [h]
    rfl

/-- C4 counterexample: a successful response whose `error.data.message`
is present but empty gets the TOP-LEVEL message (JS `||` treats the
empty string as falsy), so the claim "nested message whenever present"
fails at this input. -/
theorem request_nested_message_cex :
    request "/web/dataset/call_kw"
        ⟨200, "OK", ⟨none, some ⟨7, "Top Level", some ⟨"", "dbg"⟩⟩⟩⟩ =
      .error (.apiError "Top Level" (some 7) (some "dbg")) ∧
    ("Top Level" : String) ≠ "" := by
  exact ⟨rfl, by decide⟩

/-- C4 (amended): on a successful response with an `error` field, the
raised `OdooApiError` carries the nested `error.data.message` when it is
present and non-empty, and the top-level `error.message` otherwise
(including when the nested message is the empty string), together with
the numeric `error.code`. -/
theorem request_error_body (endpoint : String) (resp : HttpResponse) (e : RpcError)
    (hOk : 200 ≤ resp.status ∧ resp.status < 300)
    (hErr : resp.body.error = some e) :
    (∀ d, e.data = some d → d.message ≠ "" →
      request endpoint resp = .error (.apiError d.message (some e.code) (some d.debug))) ∧
    (∀ d, e.data = some d → d.message = "" →
      request endpoint resp = .error (.apiError e.message (some e.code) (some d.debug))) ∧
    (e.data = none →
      request endpoint resp = .error (.apiError e.message (some e.code) none)) := by
  have hok : responseOk resp.status = true := by
    simp only [responseOk, Bool.and_eq_true, decide_eq_true_eq]
    omega
  refine ⟨?_, ?_, ?_⟩
  · intro d hd hne
    simp [request, hok, hErr, hd, hne]
  · intro d hd he
    simp [request, hok, hErr, hd, he]
  · intro hd
    simp [request, hok, hErr, hd]

/-- Witness for C4 (amended): the documented scenario, a body with
`{error: {code: 200, message: "Odoo Server Error",
data: {message: "Access Denied", debug: "Traceback"}}}` raises an
`OdooApiError` with message `"Access Denied"` and code 200. -/
theorem request_error_body_witness :
    request "/web/dataset/call_kw"
        ⟨200, "OK", ⟨none, some ⟨200, "Odoo Server Error",
          some ⟨"Access Denied", "Traceback"⟩⟩⟩⟩ =
      .error (.apiError "Access Denied" (some 200) (some "Traceback")) := by
  exact (request_error_body "/web/dataset/call_kw"
      ⟨200, "OK", ⟨none, some ⟨200, "Odoo Server Error", some ⟨"Access Denied", "Traceback"⟩⟩⟩⟩
      ⟨200, "Odoo Server Error", some ⟨"Access Denied", "Traceback"⟩⟩
      (by decide) rfl).1 ⟨"Access Denied", "Traceback"⟩ rfl (by decide)

/-- C5: a successful response whose `result` is exactly `false` raises
`SessionExpiredError` if and only if the endpoint path contains the
segment `"/web/session"`; on any other endpoint the `false` result is
returned, not raised. -/
theorem request_false_result_session (endpoint : String) (resp : HttpResponse)
    (hOk : 200 ≤ resp.status ∧ resp.status < 300)
    (hNoErr : resp.body.error = none)
    (hRes : resp.body.result = some .rFalse) :
    (request endpoint resp = .error .sessionExpired ↔
      ∃ pre post, endpoint.data = pre ++ "/web/session".data ++ post) ∧
    ((∀ pre post, endpoint.data ≠ pre ++ "/web/session".data ++ post) →
      request endpoint resp = .ok (some .rFalse)) := by
  have hok : responseOk resp.status = true := by
    simp only [responseOk, Bool.and_eq_true, decide_eq_true_eq]
    omega
  have hiff := containsSeg_iff "/web/session".data endpoint.data
  constructor
  · constructor
    · intro hraise
      by_cases hinc : strIncludes endpoint "/web/session" = true
      · exact hiff.mp hinc
      · simp [request, hok, hNoErr, hRes, hinc] at hraise
    · intro hex
      have hinc : strIncludes endpoint "/web/session" = true := hiff.mpr hex
      simp [request, hok, hNoErr, hRes, hinc]
  · intro hnone
    have hinc : strIncludes endpoint "/web/session" = false := by
      by_contra hc
      rw [Bool.not_eq_false] at hc
      obtain ⟨pre, post, h⟩ := hiff.mp hc
      exact hnone pre post h
    simp [request, hok, hNoErr, hRes, hinc]

/-- Witness for C5: `result: false` raises session-expired on
`/web/session/authenticate` but is returned as the result on
`/web/dataset/call_kw`. -/
theorem request_false_result_session_witness :
    request "/web/session/authenticate" ⟨200, "OK", ⟨some .rFalse, none⟩⟩ =
      .error .sessionExpired ∧
    request "/web/dataset/call_kw" ⟨200, "OK", ⟨some .rFalse, none⟩⟩ =
      .ok (some .rFalse) := by
  constructor
  · exact (request_false_result_session "/web/session/authenticate"
      ⟨200, "OK", ⟨some .rFalse, none⟩⟩ (by decide) rfl rfl).1.mpr
      ⟨[], "/authenticate".data, by decide⟩
  · exact (request_false_result_session "/web/dataset/call_kw"
      ⟨200, "OK", ⟨some .rFalse, none⟩⟩ (by decide) rfl rfl).2
      (by
        intro pre post h
        have : strIncludes "/web/dataset/call_kw" "/web/session" = true :=
          (containsSeg_iff "/web/session".data "/web/dataset/call_kw".data).mpr
            ⟨pre, post, h⟩
        exact absurd this (by decide))

/-- Every network path of `getRunningTimer` issues at least one RPC. -/
theorem getRunningTimerFetch_calls_pos (now : Int) (net : TimerNet) :
    1 ≤ (getRunningTimerFetch now net).2.2 := by
  unfold getRunningTimerFetch
  split
  · norm_num
  · split
    · norm_num
    · split
      · norm_num
      · norm_num
      · dsimp only
        split <;> split <;> norm_num

/-- C6: after any successful `stopTimer` or `cancelTimer`, the timer
cache entry is gone, so `getRunningTimer(useCache = true)` finds no
valid cache entry and goes to the network (at least one RPC issued)
instead of returning a stale cached state. -/
theorem stop_cancel_invalidate_cache (readLines : Option (List UnitAmountRow))
    (store : TStore) (now : Int) (net : TimerNet) :
    getCachedTimerState now (stopTimer readLines store).2 = none ∧
    1 ≤ (getRunningTimer true now (stopTimer readLines store).2 net).2.2 ∧
    getCachedTimerState now (cancelTimer store) = none ∧
    1 ≤ (getRunningTimer true now (cancelTimer store) net).2.2 :=
  ⟨rfl, getRunningTimerFetch_calls_pos now net, rfl,
    getRunningTimerFetch_calls_pos now net⟩

/-- A state read back from a cache slot satisfying the invariant
satisfies the invariant. -/
theorem timerStateInv_cached (now : Int) (st : TStore) (c : TimerState)
    (hinv : storeInv st = true) (h : getCachedTimerState now st = some c) :
    timerStateInv c = true := by
  cases st with
  | none => simp [getCachedTimerState] at h
  | some cc =>
    have hd : cc.data = c := by
      by_cases hlt : now - cc.timestamp < 30000
      · have he : getCachedTimerState now (some cc) = some cc.data := by
          show (if now - cc.timestamp < 30000 then some cc.data else none) = some cc.data
          rw [if_pos hlt]
        rw [he] at h
        injection h
      · have he : getCachedTimerState now (some cc) = none := by
          show (if now - cc.timestamp < 30000 then some cc.data else none) = none
          rw [if_neg hlt]
        rw [he] at h
        exact Option.noConfusion h
    rw [← hd]
    exact hinv

/-- Lemma: `updatePatch` never touches the timer id. -/
theorem updatePatch_timerId (c : TimerState) (p t : Option Nat)
    (d : Option String) (net : NamesNet) :
    (updatePatch c p t d net).timerId = c.timerId := by
  unfold updatePatch
  cases p <;> cases t <;> cases d <;> dsimp only <;> (try split) <;> rfl

/-- Lemma: `updatePatch` never touches the start time. -/
theorem updatePatch_startTime (c : TimerState) (p t : Option Nat)
    (d : Option String) (net : NamesNet) :
    (updatePatch c p t d net).startTime = c.startTime := by
  unfold updatePatch
  cases p <;> cases t <;> cases d <;> dsimp only <;> (try split) <;> rfl

/-- The network path of `getRunningTimer` only caches and returns states
with a present start time. -/
theorem getRunningTimerFetch_inv (now : Int) (net : TimerNet) :
    storeInv (getRunningTimerFetch now net).2.1 = true ∧
    (∀ s, (getRunningTimerFetch now net).1 = some s → timerStateInv s = true) := by
  unfold getRunningTimerFetch
  split
  · exact ⟨rfl, fun s hs => by simp at hs⟩
  · split
    · exact ⟨rfl, fun s hs => by simp at hs⟩
    · split
      · exact ⟨rfl, fun s hs => by simp at hs⟩
      · exact ⟨rfl, fun s hs => by simp at hs⟩
      · refine ⟨rfl, fun s hs => ?_⟩
        injection hs with hs'
        rw [← hs']
        rfl

/-- Lemma: `getRunningTimer` preserves the invariant of the store and returns
only invariant-satisfying states. -/
theorem getRunningTimer_inv (u : Bool) (now : Int) (store : TStore)
    (net : TimerNet) (hinv : storeInv store = true) :
    storeInv (getRunningTimer u now store net).2.1 = true ∧
    (∀ s, (getRunningTimer u now store net).1 = some s → timerStateInv s = true) := by
  unfold getRunningTimer
  cases u with
  | false => exact getRunningTimerFetch_inv now net
  | true =>
    cases hc : getCachedTimerState now store with
    | none =>
      simp only [if_true, hc]
      exact getRunningTimerFetch_inv now net
    | some c =>
      simp only [if_true, hc]
      refine ⟨hinv, fun s hs => ?_⟩
      injection hs with hs'
      rw [← hs']
      exact timerStateInv_cached now store c hinv hc

/-- Lemma: `startTimerViaLookup` only caches states with a present start time. -/
theorem startTimerViaLookup_inv (now : Int) (rt : Option RunningTimerInfo)
    (res : Nat × String) (st' : TStore)
    (h : startTimerViaLookup now rt = .ok (res, st')) : storeInv st' = true := by
  unfold startTimerViaLookup at h
  split at h
  · exact Except.noConfusion h
  · split at h
    · exact Except.noConfusion h
    · injection h with h1
      injection h1 with h1a h1b
      rw [← h1b]
      rfl

/-- C7: every `TimerState` that a timesheet operation (`startTimer`,
`startTimerWithDetails`, `updateTimer`, `assignTimerDetails`,
`getRunningTimer`) caches or returns satisfies the invariant: a non-null
`timerId` implies a non-null `startTime` (while project, task and
description may each stay null). -/
theorem timesheet_timerState_invariant
    (now : Int) (snet : StartNet)
    (dpid dtid : Nat) (ddesc : Option String) (dnet : DetailsNet)
    (utid : Nat) (upid utask : Option Nat) (udesc : Option String) (unet : NamesNet)
    (atid apid atask : Nat) (adesc : Option String) (anet : NamesNet)
    (u : Bool) (store : TStore) (gnet : TimerNet)
    (hinv : storeInv store = true) :
    (∀ res st', startTimer now snet = .ok (res, st') → storeInv st' = true) ∧
    (∀ res st', startTimerWithDetails dpid dtid ddesc now dnet = .ok (res, st') →
      storeInv st' = true) ∧
    storeInv (updateTimer utid upid utask udesc now store unet) = true ∧
    storeInv (assignTimerDetails atid apid atask adesc now store anet) = true ∧
    storeInv (getRunningTimer u now store gnet).2.1 = true ∧
    (∀ s, (getRunningTimer u now store gnet).1 = some s →
      timerStateInv s = true) := by
  refine ⟨?_, ?_, ?_, ?_, (getRunningTimer_inv u now store gnet hinv).1,
    (getRunningTimer_inv u now store gnet hinv).2⟩
  · intro res st' h
    unfold startTimer at h
    split at h
    · exact startTimerViaLookup_inv now snet.runningTimer res st' h
    · exact startTimerViaLookup_inv now snet.runningTimer res st' h
    · split at h
      · exact Except.noConfusion h
      · injection h with h1
        injection h1 with h1a h1b
        rw [← h1b]
        rfl
    · injection h with h1
      injection h1 with h1a h1b
      rw [← h1b]
      rfl
  · intro res st' h
    unfold startTimerWithDetails at h
    split at h
    · exact Except.noConfusion h
    · exact Except.noConfusion h
    · injection h with h1
      injection h1 with h1a h1b
      rw [← h1b]
      rfl
  · rcases hc : getCachedTimerState now store with _ | c
    · simp only [updateTimer, hc]
      exact hinv
    · simp only [updateTimer, hc]
      split
      · have hcinv := timerStateInv_cached now store c hinv hc
        show timerStateInv (updatePatch c upid utask udesc unet) = true
        unfold timerStateInv at hcinv ⊢
        rw [updatePatch_timerId, updatePatch_startTime]
        exact hcinv
      · exact hinv
  · rcases hc : getCachedTimerState now store with _ | c
    · simp only [assignTimerDetails, hc]
      exact hinv
    · simp only [assignTimerDetails, hc]
      split
      · have hcinv := timerStateInv_cached now store c hinv hc
        show timerStateInv (assignPatch c apid atask adesc anet) = true
        exact hcinv
      · exact hinv

/-- Witness for C7: a concrete invariant-satisfying store stays
invariant-satisfying across `updateTimer`. -/
theorem timesheet_timerState_invariant_witness :
    storeInv (some ⟨⟨some 1, none, none, none, none, none,
      some "2024-01-01 00:00:00"⟩, 0⟩) = true ∧
    storeInv (updateTimer 1 (some 2) none none 0
      (some ⟨⟨some 1, none, none, none, none, none,
        some "2024-01-01 00:00:00"⟩, 0⟩) ⟨[], []⟩) = true := by
  refine ⟨by decide, ?_⟩
  have h := timesheet_timerState_invariant 0 ⟨.rFalse, none⟩ 1 2 none
    ⟨5, none, [], []⟩ 1 (some 2) none none ⟨[], []⟩ 1 2 3 none ⟨[], []⟩ true
    (some ⟨⟨some 1, none, none, none, none, none, some "2024-01-01 00:00:00"⟩, 0⟩)
    ⟨none, none, [], []⟩ (by decide)
  exact h.2.2.1

/-- C8: for a multi-tenant `*.odoo.com` host, database resolution
returns the sole listed database when the listing has exactly one entry;
with several entries, the first one whose name starts with the subdomain,
else the first listed; and the subdomain itself when the listing failed
or is empty. -/
theorem extractDatabaseName_odooHost (host : String) (databases : List String)
    (hHost : strEnds host ".odoo.com" = true) :
    (∀ d, databases = [d] → extractDatabaseName host databases = d) ∧
    (2 ≤ databases.length →
      (∀ m, databases.find? (fun db => strLead db (odooSubdomain host)) = some m →
        extractDatabaseName host databases = m) ∧
      (databases.find? (fun db => strLead db (odooSubdomain host)) = none →
        ∀ d rest, databases = d :: rest → extractDatabaseName host databases = d)) ∧
    (databases = [] → extractDatabaseName host databases = odooSubdomain host) := by
  refine ⟨?_, fun hlen => ⟨?_, ?_⟩, ?_⟩
  · rintro d rfl
    simp [extractDatabaseName, hHost]
  · intro m hm
    have h1 : ¬ databases.length = 1 := by omega
    have h2 : databases.length > 1 := by omega
    simp [extractDatabaseName, hHost, h1, h2, hm]
  · rintro hm d rest rfl
    have h1 : ¬ (d :: rest).length = 1 := by
      simp only [List.length_cons] at hlen ⊢
      omega
    have h2 : (d :: rest).length > 1 := hlen
    simp only [extractDatabaseName, hHost, if_true, if_pos h2, if_neg h1, hm]
    rfl
  · rintro rfl
    simp [extractDatabaseName, hHost]

/-- Witness for C8: the documented scenario — host `"acme.odoo.com"`
with listing `["acme"]` resolves to `"acme"`. -/
theorem extractDatabaseName_odooHost_witness :
    extractDatabaseName "acme.odoo.com" ["acme"] = "acme" :=
  (extractDatabaseName_odooHost "acme.odoo.com" ["acme"] (by decide)).1 "acme" rfl

/-- C9 counterexample: two `getAttendanceStatus(useCache = true)` calls
1000 ms apart (well inside the 60 000 ms TTL) issue TWO network requests
in total when the first call's primary endpoint fails and it falls back
to the model call — refuting "at most one network call in total". -/
theorem attendance_two_calls_cex :
    (getAttendanceStatus true 0 none
        ⟨.error (), .ok ⟨.checkedOut, none, 0⟩⟩).2.2 +
      (getAttendanceStatus true 1000
        (getAttendanceStatus true 0 none
          ⟨.error (), .ok ⟨.checkedOut, none, 0⟩⟩).2.1
        ⟨.error (), .ok ⟨.checkedOut, none, 0⟩⟩).2.2 = 2 ∧
    ¬ ((2 : Nat) ≤ 1) ∧ (1000 : Int) - 0 < 60000 := by
  refine ⟨rfl, by omega, by norm_num⟩

/-- C9 (amended): when the first of two `getAttendanceStatus(useCache =
true)` calls within one TTL window misses the cache and succeeds, the
second call issues no network request and returns exactly the state the
first cached; when moreover the first call's primary endpoint succeeded,
the pair issues exactly one network request in total (the fallback path
issues two). -/
theorem attendance_cached_second_call (t1 t2 : Int) (store : AStore)
    (net1 net2 : AttendanceNet) (a : AttendanceState)
    (hmiss : getCachedAttendanceState t1 store = none)
    (hok : (getAttendanceStatus true t1 store net1).1 = .ok a)
    (h12 : t1 ≤ t2) (httl : t2 - t1 < 60000) :
    getAttendanceStatus true t2 (getAttendanceStatus true t1 store net1).2.1 net2 =
      (.ok a, (getAttendanceStatus true t1 store net1).2.1, 0) ∧
    (net1.primary = .ok a →
      (getAttendanceStatus true t1 store net1).2.2 +
        (getAttendanceStatus true t2
          (getAttendanceStatus true t1 store net1).2.1 net2).2.2 = 1) := by
  have hvalid : ∀ x : AttendanceState,
      getCachedAttendanceState t2 (some ⟨x, t1⟩) = some x := by
    intro x
    show (if t2 - t1 < 60000 then some x else none) = some x
    rw [if_pos httl]
  rcases hp : net1.primary with e | r
  · -- primary failed: the fallback must have supplied the result
    rcases hf : net1.fallback with e2 | f
    · exfalso
      simp [getAttendanceStatus, hmiss, hp, hf] at hok
    · have hstep : getAttendanceStatus true t1 store net1 =
          (.ok ⟨f.attendance_state, none, none, f.hours_today, ""⟩,
            some ⟨⟨f.attendance_state, none, none, f.hours_today, ""⟩, t1⟩, 2) := by
        simp [getAttendanceStatus, hmiss, hp, hf]
      have ha : (⟨f.attendance_state, none, none, f.hours_today, ""⟩ :
          AttendanceState) = a := by
        rw [hstep] at hok
        injection hok
      rw [hstep]
      constructor
      · simp [getAttendanceStatus, hvalid, ha]
      · intro hcontra
        exact Except.noConfusion hcontra
  · have hstep : getAttendanceStatus true t1 store net1 =
        (.ok r, some ⟨r, t1⟩, 1) := by
      simp [getAttendanceStatus, hmiss, hp]
    have ha : r = a := by
      rw [hstep] at hok
      injection hok
    rw [hstep]
    constructor
    · simp [getAttendanceStatus, hvalid, ha]
    · intro _
      simp [getAttendanceStatus, hvalid, ha]

/-- Witness for C9 (amended): a concrete successful first call at `t =
0` followed by a call at `t = 1000` that is served from the cache. -/
theorem attendance_cached_second_call_witness :
    getAttendanceStatus true 1000
        (getAttendanceStatus true 0 none
          ⟨.ok ⟨.checkedIn, none, none, 0, "emp"⟩, .error ()⟩).2.1
        ⟨.error (), .error ()⟩ =
      (.ok ⟨.checkedIn, none, none, 0, "emp"⟩,
        (getAttendanceStatus true 0 none
          ⟨.ok ⟨.checkedIn, none, none, 0, "emp"⟩, .error ()⟩).2.1, 0) := by
  exact (attendance_cached_second_call 0 1000 none
    ⟨.ok ⟨.checkedIn, none, none, 0, "emp"⟩, .error ()⟩ ⟨.error (), .error ()⟩
    ⟨.checkedIn, none, none, 0, "emp"⟩ rfl rfl (by norm_num) (by norm_num)).1

/-- C10: when the running-timer lookup reports an id but the follow-up
read of the authoritative `timer_start` field returns no rows (`null` or
an empty list), `getRunningTimer` clears the timer cache and returns
null — no error is raised and no start-less state is cached. -/
theorem getRunningTimer_missing_start (u : Bool) (now : Int) (store : TStore)
    (net : TimerNet) (r : RunningTimerInfo) (i : Nat)
    (hcache : u = false ∨ getCachedTimerState now store = none)
    (hrt : net.runningTimer = some r) (hid : r.id = some i) (hi : i ≠ 0)
    (hread : net.readStart = none ∨ net.readStart = some []) :
    getRunningTimer u now store net = (none, none, 2) := by
  have htruthy : jsTruthyN r.id = true := by
    rw [hid]
    simpa [jsTruthyN] using hi
  have hfetch : getRunningTimerFetch now net = (none, none, 2) := by
    rcases hread with h | h <;>
      simp [getRunningTimerFetch, hrt, htruthy, h]
  rcases hcache with h | h
  · rw [h]
    simpa [getRunningTimer] using hfetch
  · cases u <;> simp [getRunningTimer, h] <;> exact hfetch

/-- Witness for C10: a lookup reporting id 42 whose `timer_start` read
returns `null`. -/
theorem getRunningTimer_missing_start_witness :
    getRunningTimer false 0 none
      ⟨some ⟨some 42, some 5, none, none, none, none⟩, none, [], []⟩ =
      (none, none, 2) :=
  getRunningTimer_missing_start false 0 none
    ⟨some ⟨some 42, some 5, none, none, none, none⟩, none, [], []⟩
    ⟨some 42, some 5, none, none, none, none⟩ 42
    (Or.inl rfl) rfl rfl (by decide) (Or.inl rfl)

end Odoo
